import Mathlib

/-!
Verification of the Veeam REST monitoring plugin against its specification.

The definitions below are a shallow embedding of the Python sources:
`debug_veeam_api.py` (the paginated REST fetcher) and
`plugins/veeam_rest/` (the shared library and the check plugins).
Machine details that the claims do not depend on (HTTP transport, JSON
decoding, the monitoring framework's renderers) are modelled abstractly,
each with a doc comment saying what external piece it stands for.
-/

namespace VeeamRest

/-! ## Paginated fetcher (`debug_veeam_api.py`, `api_get_paginated`)

An HTTP page response.  `status` is the HTTP status code; `isDict` says
whether the JSON body is an envelope object (Python `isinstance(data, dict)`)
or a bare array; for an envelope, `items` is `data.get("data", [])` and
`total` is `pagination.get("total")` when present.  Items themselves are
opaque and modelled as naturals. -/
structure Response where
  status : Nat
  isDict : Bool
  items : List Nat
  total : Option Nat
deriving DecidableEq, Repr

/-- Outcome of one whole fetch: either a normal return carrying the
accumulated item list and the call count, or a propagated Python
exception (the loop body has no try/except, so e.g. a `requests.Timeout`
raised by `session.get` escapes `api_get_paginated`). -/
inductive FetchOutcome where
  | ok (items : List Nat) (calls : Nat)
  | exn
deriving DecidableEq, Repr

/-- The `while True` loop of `api_get_paginated`.  The server is a function
from the `skip` offset to a response; `none` models the HTTP call raising
(e.g. a timeout).  `fuel` bounds the number of iterations — the Python loop
has no such bound, so `none` (fuel exhausted) marks a run that was cut short
and proves nothing about the code. -/
def pageLoop (server : Nat → Option Response) (limit : Nat) :
    Nat → Nat → List Nat → Nat → Option FetchOutcome
  | 0, _, _, _ => none
  | fuel + 1, skip, acc, count =>
    match server skip with
    | none => some FetchOutcome.exn
    | some r =>
      let count1 := count + 1
      if r.status ≠ 200 then some (FetchOutcome.ok acc count1)
      else
        let items := r.items
        if items = [] then some (FetchOutcome.ok acc count1)
        else
          let acc1 := acc ++ items
          if r.isDict then
            let total := r.total.getD items.length
            if total ≤ skip + items.length then some (FetchOutcome.ok acc1 count1)
            else pageLoop server limit fuel (skip + limit) acc1 count1
          else
            if items.length < limit then some (FetchOutcome.ok acc1 count1)
            else pageLoop server limit fuel (skip + limit) acc1 count1

/-- `api_get_paginated(session, base_url, endpoint, token, verify_ssl, limit)`:
runs the page loop from `skip = 0` with empty accumulator and zero calls. -/
def api_get_paginated (server : Nat → Option Response) (limit fuel : Nat) :
    Option FetchOutcome :=
  pageLoop server limit fuel 0 [] 0

/-- A bare-array endpoint holding the items of `l`, honouring `limit`/`skip`:
each request returns the next `min P remaining` items, with HTTP 200. -/
def bareServer (l : List Nat) (P : Nat) (skip : Nat) : Option Response :=
  some { status := 200, isDict := false, items := (l.drop skip).take P, total := none }

/-- A bare-array endpoint that answers HTTP 500 at offset `fs` and serves
`l` normally everywhere else. -/
def failServer (l : List Nat) (P fs : Nat) (skip : Nat) : Option Response :=
  if skip = fs then some { status := 500, isDict := false, items := [], total := none }
  else bareServer l P skip

/-- A bare-array endpoint whose request at offset `fs` times out (the HTTP
call raises instead of returning a response). -/
def timeoutServer (l : List Nat) (P fs : Nat) (skip : Nat) : Option Response :=
  if skip = fs then none else bareServer l P skip

/-- After `f` full pages of size `P` served from `l`, the loop sits at offset
`s + f * P` with those pages appended to the accumulator and `f` more calls
counted.  Holds for any server that agrees with full bare pages of `l` on the
offsets actually visited. -/
lemma pageLoop_reach (srv : Nat → Option Response) (l : List Nat) (P : Nat)
    (hP : 1 ≤ P) :
    ∀ f fuel s acc c, f ≤ fuel → s + f * P ≤ l.length →
    (∀ i, i < f → srv (s + i * P) =
      some { status := 200, isDict := false, items := (l.drop (s + i * P)).take P, total := none }) →
    pageLoop srv P fuel s acc c =
      pageLoop srv P (fuel - f) (s + f * P) (acc ++ (l.drop s).take (f * P)) (c + f) := by
  intro f
  induction f with
  | zero => intro fuel s acc c _ _ _; simp
  | succ f ih =>
    intro fuel s acc c hfuel hlen hsrv
    obtain ⟨fuel', rfl⟩ : ∃ fuel', fuel = fuel' + 1 := by
      cases fuel with
      | zero => omega
      | succ n => exact ⟨n, rfl⟩
    have hsrv0 := hsrv 0 (Nat.succ_pos f)
    simp only [Nat.zero_mul, Nat.add_zero] at hsrv0
    have hsP : s + P ≤ l.length := by
      have : P ≤ (f + 1) * P := Nat.le_mul_of_pos_left P (Nat.succ_pos f)
      omega
    have hitems_len : ((l.drop s).take P).length = P := by
      simp [List.length_take, List.length_drop]
      omega
    have hitems_ne : (l.drop s).take P ≠ [] := by
      intro h
      have := congrArg List.length h
      simp [hitems_len] at this
      omega
    have hrec := ih fuel' (s + P) (acc ++ (l.drop s).take P) (c + 1)
      (by omega)
      (by have h1 : s + P + f * P = s + (f + 1) * P := by ring
          omega)
      (by intro i hi
          have h2 := hsrv (i + 1) (by omega)
          have harith : s + (i + 1) * P = s + P + i * P := by ring
          rw [harith] at h2
          exact h2)
    rw [pageLoop, hsrv0]
    simp only [ne_eq, eq_self_iff_true, not_true, Bool.false_eq_true, if_false,
      hitems_ne, hitems_len, lt_self_iff_false, ite_false]
    rw [hrec]
    have hdrop : List.drop P (List.drop s l) = List.drop (s + P) l := by
      rw [List.drop_drop, Nat.add_comm]
    congr 1
    · omega
    · ring
    · rw [List.append_assoc]
      congr 1
      rw [← hdrop, ← List.take_add]
      congr 1
      ring
    · omega

/-- Division/modulus bookkeeping for the offset reached after all full pages. -/
lemma div_mul_offset (T P : Nat) :
    T / P * P ≤ T ∧ T - T / P * P = T % P := by
  refine ⟨Nat.div_mul_le_self T P, ?_⟩
  rw [Nat.mul_comm, Nat.mod_def]

/-- On a bare-array endpoint the loop always answers `floor(T/P) + 1` calls:
after the full pages it issues one more request that returns either the short
final page (when `P` does not divide `T`) or an empty page (when it does). -/
lemma bare_fetch_eq (l : List Nat) (P fuel : Nat) (hP : 1 ≤ P)
    (hfuel : l.length / P < fuel) :
    api_get_paginated (bareServer l P) P fuel =
      some (FetchOutcome.ok l (l.length / P + 1)) := by
  obtain ⟨hle, hsub⟩ := div_mul_offset l.length P
  have hreach := pageLoop_reach (bareServer l P) l P hP (l.length / P) fuel 0 [] 0
      (Nat.le_of_lt hfuel) (by omega) (fun i _ => rfl)
  rw [api_get_paginated, hreach]
  simp only [Nat.zero_add, List.drop_zero, List.nil_append]
  obtain ⟨k, hk⟩ : ∃ k, fuel - l.length / P = k + 1 :=
    ⟨fuel - l.length / P - 1, by omega⟩
  rw [hk, pageLoop]
  have hmodlt : l.length % P < P := Nat.mod_lt _ (by omega)
  have hlendrop : (l.drop (l.length / P * P)).length = l.length % P := by
    simp [List.length_drop, hsub]
  by_cases hmod : l.length % P = 0
  · have hfp : l.length / P * P = l.length := by omega
    have hdropnil : l.drop (l.length / P * P) = [] := by
      rw [hfp]
      exact List.drop_length l
    simp [bareServer, hdropnil, hfp, List.take_length]
  · have htake : (l.drop (l.length / P * P)).take P = l.drop (l.length / P * P) :=
      List.take_of_length_le (by omega)
    have hne : l.drop (l.length / P * P) ≠ [] := by
      intro h
      rw [h] at hlendrop
      simp at hlendrop
      omega
    simp [bareServer, htake, hne, hlendrop, hmodlt, List.take_append_drop]

/-- C1: the claim counts `ceil(T/P)` requests; the code issues one extra
request whenever the item total is an exact multiple of the page size,
because only an empty (or short) page stops the loop.  At `T = P = 1` the
fetch makes 2 requests while `ceil(1/1) = 1`. -/
theorem C1_counterexample :
    api_get_paginated (bareServer [0] 1) 1 5 = some (FetchOutcome.ok [0] 2)
    ∧ (1 + 1 - 1) / 1 = 1 ∧ 2 ≠ 1 := by
  refine ⟨?_, by decide, by decide⟩
  decide

/-- C1 (amended): for a bare-array endpoint with `T` items and page size
`P ≥ 1`, `api_get_paginated` returns all `T` items and issues exactly
`floor(T/P) + 1` requests; that equals `ceil(T/P)` exactly when `P` does not
divide `T` (for `P ∣ T` the loop needs one extra empty-page request). -/
theorem C1_pagination (l : List Nat) (P fuel : Nat) (hP : 1 ≤ P)
    (hfuel : l.length / P < fuel) :
    api_get_paginated (bareServer l P) P fuel =
      some (FetchOutcome.ok l (l.length / P + 1))
    ∧ (¬ P ∣ l.length → l.length / P + 1 = (l.length + P - 1) / P) := by
  refine ⟨bare_fetch_eq l P fuel hP hfuel, ?_⟩
  intro hndvd
  have hmod : l.length % P ≠ 0 := fun h => hndvd (Nat.dvd_of_mod_eq_zero h)
  have hmodlt : l.length % P < P := Nat.mod_lt _ (by omega)
  have hdecomp := Nat.div_add_mod l.length P
  have harith : l.length + P - 1 = l.length % P + P - 1 + P * (l.length / P) := by
    omega
  rw [harith, Nat.add_mul_div_left _ _ (by omega : 0 < P)]
  have hone : (l.length % P + P - 1) / P = 1 :=
    Nat.div_eq_of_lt_le (by omega) (by omega)
  omega

/-- C1 (amended) witness at `l = [0,1,2]`, `P = 2`: two requests, all items. -/
theorem C1_pagination_witness :
    api_get_paginated (bareServer [0, 1, 2] 2) 2 2 =
      some (FetchOutcome.ok [0, 1, 2] 2) :=
  (C1_pagination [0, 1, 2] 2 2 (by decide) (by decide)).1

/-- C2: if the request at page `f + 1` (offset `f * P`) answers a non-200
status after `f` full pages, `api_get_paginated` returns normally (no
exception) with exactly the items of the earlier successful pages and
`f + 1` calls counted.  The loop breaks on `response.status_code != 200`
and returns the accumulator. -/
theorem C2_partial_failure (l : List Nat) (P f fuel : Nat) (hP : 1 ≤ P)
    (hlen : f * P ≤ l.length) (hfuel : f < fuel) :
    api_get_paginated (failServer l P (f * P)) P fuel =
      some (FetchOutcome.ok (l.take (f * P)) (f + 1)) := by
  have hreach := pageLoop_reach (failServer l P (f * P)) l P hP f fuel 0 [] 0
      (Nat.le_of_lt hfuel) (by omega)
      (fun i hi => by
        have hif : ¬ i = f := by omega
        have hP0 : ¬ P = 0 := by omega
        simp [failServer, bareServer, hif, hP0])
  rw [api_get_paginated, hreach]
  simp only [Nat.zero_add, List.drop_zero, List.nil_append]
  obtain ⟨k, hk⟩ : ∃ k, fuel - f = k + 1 := ⟨fuel - f - 1, by omega⟩
  rw [hk, pageLoop]
  simp [failServer]

/-- C2 witness: five one-item pages, the third request answers HTTP 500 —
the fetch returns the two earlier pages and has made three calls. -/
theorem C2_partial_failure_witness :
    api_get_paginated (failServer [10, 11, 12, 13, 14] 1 2) 1 9 =
      some (FetchOutcome.ok [10, 11] 3) := by
  have h := C2_partial_failure [10, 11, 12, 13, 14] 1 2 9 (by decide) (by decide)
    (by decide)
  simpa using h

/-- C3: the claim says a per-request timeout is treated like a failed page
(stop, return partial results).  In the code `session.get` sits in the loop
with no `try`/`except`, so a raised `requests.Timeout` propagates out of
`api_get_paginated` and the accumulated pages are lost: with one-item pages
and the third request timing out, the outcome is a propagated exception, not
a normal return of the first two pages. -/
theorem C3_counterexample :
    api_get_paginated (timeoutServer [10, 11, 12, 13, 14] 1 2) 1 9 =
      some FetchOutcome.exn
    ∧ some FetchOutcome.exn ≠ some (FetchOutcome.ok [10, 11] 3) := by
  refine ⟨?_, by decide⟩
  decide

/-- C3 (amended): when the request at offset `f * P` raises (times out) after
`f` full pages, the exception propagates out of `api_get_paginated`; the
partial results are not returned.  Only a non-200 *response* triggers the
stop-and-return-partial policy. -/
theorem C3_timeout_propagates (l : List Nat) (P f fuel : Nat) (hP : 1 ≤ P)
    (hlen : f * P ≤ l.length) (hfuel : f < fuel) :
    api_get_paginated (timeoutServer l P (f * P)) P fuel =
      some FetchOutcome.exn := by
  have hreach := pageLoop_reach (timeoutServer l P (f * P)) l P hP f fuel 0 [] 0
      (Nat.le_of_lt hfuel) (by omega)
      (fun i hi => by
        have hif : ¬ i = f := by omega
        have hP0 : ¬ P = 0 := by omega
        simp [timeoutServer, bareServer, hif, hP0])
  rw [api_get_paginated, hreach]
  obtain ⟨k, hk⟩ : ∃ k, fuel - f = k + 1 := ⟨fuel - f - 1, by omega⟩
  rw [hk, pageLoop]
  simp [timeoutServer]

/-- C3 (amended) witness: concrete instance of the timeout propagation. -/
theorem C3_timeout_propagates_witness :
    api_get_paginated (timeoutServer [10, 11, 12, 13, 14] 1 2) 1 9 =
      some FetchOutcome.exn := by
  have h := C3_timeout_propagates [10, 11, 12, 13, 14] 1 2 9 (by decide) (by decide)
    (by decide)
  simpa using h

/-! ## Shared library (`plugins/veeam_rest/lib.py`)

Python strings are modelled as their character lists (`String.data`), and the
string primitives the library uses (`split`, `replace`, `upper`, `in`) are
given structurally recursive equivalents so that concrete runs evaluate. -/

/-- Python `str.split(sep)` for a one-character separator: splits at every
occurrence and keeps empty pieces (`"".split(sep) == [""]`). -/
def splitOnPred (p : Char → Bool) : List Char → List (List Char)
  | [] => [[]]
  | c :: cs =>
    let r := splitOnPred p cs
    if p c then [] :: r
    else
      match r with
      | [] => [[c]]
      | piece :: rest => (c :: piece) :: rest

/-- `splitOnPred` specialised to a single separator character. -/
def splitOnChar (sep : Char) : List Char → List (List Char) :=
  splitOnPred (fun c => c == sep)

/-- Rejoin split pieces with a separator (used for Python `split(".", 1)`:
the second piece is the rest of the string joined back on `.`). -/
def intercalateChar (sep : Char) : List (List Char) → List Char
  | [] => []
  | [x] => x
  | x :: xs => x ++ sep :: intercalateChar sep xs

/-- Numeric value of a digit string (helper for the int/float models). -/
def digitsVal (ds : List Char) : Nat :=
  ds.foldl (fun a c => a * 10 + (c.toNat - 48)) 0

/-- Modelled from the spec: Python `int(s)` on the decimal substrings of a
duration string — optional sign then digits; `none` models a raised
`ValueError` (underscore separators and surrounding whitespace, which the
duration fields never contain, are not modelled). -/
def pyInt (cs : List Char) : Option Int :=
  let sr : Bool × List Char :=
    match cs with
    | '-' :: r => (true, r)
    | '+' :: r => (false, r)
    | _ => (false, cs)
  if sr.2 ≠ [] ∧ sr.2.all Char.isDigit then
    some (if sr.1 then -(digitsVal sr.2 : Int) else (digitsVal sr.2 : Int))
  else none

/-- Modelled from the spec: Python `float(s)` on plain decimal literals
(optional sign, digits, optional `.` and fraction digits) as produced by the
rate fields.  Returns sign, integer digits, fraction digits and fraction
length; `none` models a raised `ValueError`.  Exponent/`inf`/`nan` literal
forms are not modelled. -/
def py_float_parts (cs : List Char) : Option (Bool × Nat × Nat × Nat) :=
  let sr : Bool × List Char :=
    match cs with
    | '-' :: r => (true, r)
    | '+' :: r => (false, r)
    | _ => (false, cs)
  match splitOnChar '.' sr.2 with
  | [ip] =>
    if ip ≠ [] ∧ ip.all Char.isDigit then some (sr.1, digitsVal ip, 0, 0) else none
  | [ip, fp] =>
    if (ip ≠ [] ∨ fp ≠ []) ∧ ip.all Char.isDigit ∧ fp.all Char.isDigit then
      some (sr.1, digitsVal ip, digitsVal fp, fp.length)
    else none
  | _ => none

/-- The exact rational a parsed float literal denotes.  (Python would round
it to the nearest IEEE double; the claims compare parses of one and the same
literal, which this choice does not affect.) -/
def ratOfParts (p : Bool × Nat × Nat × Nat) : ℚ :=
  let m : ℚ := (p.2.1 : ℚ) + (p.2.2.1 : ℚ) / (10 : ℚ) ^ p.2.2.2
  if p.1 then -m else m

/-- The `multipliers` table of `parse_rate_to_bytes_per_second`, verbatim. -/
def multipliers : List (String × Nat) :=
  [("B/S", 1), ("KB/S", 1024), ("MB/S", 1024 ^ 2), ("GB/S", 1024 ^ 3),
   ("TB/S", 1024 ^ 4),
   ("B", 1), ("KB", 1024), ("MB", 1024 ^ 2), ("GB", 1024 ^ 3), ("TB", 1024 ^ 4)]

/-- `rate_str.replace(",", ".")` followed by `split()` (whitespace runs,
no empty parts) — the first two lines of the `try` block. -/
def rate_parts (rate_str : String) : List (List Char) :=
  (splitOnPred Char.isWhitespace
    (rate_str.data.map (fun c => if c = ',' then '.' else c))).filter
    (fun piece => piece ≠ [])

/-- The discrete part of `parse_rate_to_bytes_per_second`: European-comma
replacement, whitespace split, exactly-two-parts check, float scan of the
value, uppercase unit lookup with default multiplier 1. -/
def parse_rate_scan (rate_str : String) :
    Option ((Bool × Nat × Nat × Nat) × Nat) :=
  if rate_str = "" then none
  else
    match rate_parts rate_str with
    | [v, u] =>
      match py_float_parts v with
      | none => none
      | some pf =>
        some (pf, (multipliers.lookup (⟨u.map Char.toUpper⟩ : String)).getD 1)
    | _ => none

/-- `parse_rate_to_bytes_per_second`: the scanned value times the unit
multiplier, `none` on empty input, wrong shape, or unparseable number. -/
def parse_rate_to_bytes_per_second (rate_str : String) : Option ℚ :=
  (parse_rate_scan rate_str).map (fun q => ratOfParts q.1 * (q.2 : ℚ))

/-- `parse_duration_to_seconds`: accepts `HH:MM:SS` and `D.HH:MM:SS`;
`int()` failures and other shapes give `None`. -/
def parse_duration_to_seconds (duration_str : String) : Option Int :=
  if duration_str = "" then none
  else
    match splitOnChar ':' duration_str.data with
    | [h, m, s] =>
      let dh : Option (Int × Int) :=
        if h.contains '.' then
          match splitOnChar '.' h with
          | [] => none
          | d :: rest =>
            match pyInt d, pyInt (intercalateChar '.' rest) with
            | some days, some hours => some (days, hours)
            | _, _ => none
        else
          match pyInt h with
          | some hours => some (0, hours)
          | none => none
      match dh, pyInt m, pyInt s with
      | some dhv, some minutes, some seconds =>
        some (dhv.1 * 86400 + dhv.2 * 3600 + minutes * 60 + seconds)
      | _, _, _ => none
    | _ => none

/-- Python `f"{n:02d}"`: zero-pad single digits to width two. -/
def pad2 (n : Int) : String :=
  if 0 ≤ n ∧ n < 10 then "0" ++ toString n else toString n

/-- `format_duration_hms`: `HH:MM:SS` via Python `divmod` (floor division);
hours are not rolled over into days. -/
def format_duration_hms (seconds : Int) : String :=
  pad2 (seconds.fdiv 3600) ++ ":" ++ pad2 ((seconds.fmod 3600).fdiv 60)
    ++ ":" ++ pad2 ((seconds.fmod 3600).fmod 60)

/-- C7: "1.02:03:04" parses to 93784 seconds, and formatting 93784 seconds
yields "26:03:04" — the formatter is not day-aware, so parse-then-format is
not the identity on day-prefixed durations. -/
theorem C7_duration_roundtrip_asymmetry :
    parse_duration_to_seconds "1.02:03:04" = some 93784
    ∧ (93784 : Int) = 1 * 86400 + 2 * 3600 + 3 * 60 + 4
    ∧ format_duration_hms 93784 = "26:03:04"
    ∧ "26:03:04" ≠ "1.02:03:04" := by
  decide

/-- C8: the comma decimal separator and the presence or absence of the `/s`
suffix do not change the parsed value — all three inputs give
`1.1 * 1024 ^ 3` bytes per second. -/
theorem C8_rate_locale_and_suffix :
    parse_rate_to_bytes_per_second "1,1 GB/s" = some (11 / 10 * 1024 ^ 3)
    ∧ parse_rate_to_bytes_per_second "1.1 GB/s" =
        parse_rate_to_bytes_per_second "1,1 GB/s"
    ∧ parse_rate_to_bytes_per_second "1.1 GB" =
        parse_rate_to_bytes_per_second "1,1 GB/s" := by
  have h1 : parse_rate_scan "1,1 GB/s" = some ((false, 1, 1, 1), 1024 ^ 3) := by
    decide
  have h2 : parse_rate_scan "1.1 GB/s" = some ((false, 1, 1, 1), 1024 ^ 3) := by
    decide
  have h3 : parse_rate_scan "1.1 GB" = some ((false, 1, 1, 1), 1024 ^ 3) := by
    decide
  refine ⟨?_, ?_, ?_⟩
  · simp [parse_rate_to_bytes_per_second, h1, ratOfParts]
    norm_num
  · simp [parse_rate_to_bytes_per_second, h1, h2]
  · simp [parse_rate_to_bytes_per_second, h1, h3]

/-- C10: a two-part rate string whose unit is not in the `multipliers` table
silently gets multiplier 1 — the bare numeric value is returned as if it were
bytes per second; `None` arises only from empty input, a shape other than two
whitespace-separated parts, or an unparseable numeric part. -/
theorem C10_unknown_unit_multiplier_one (s : String) :
    (∀ v u pf, rate_parts s = [v, u] → py_float_parts v = some pf →
      multipliers.lookup (⟨u.map Char.toUpper⟩ : String) = none →
      parse_rate_to_bytes_per_second s = some (ratOfParts pf * 1))
    ∧ (parse_rate_to_bytes_per_second s = none ↔
        (s = "" ∨ (rate_parts s).length ≠ 2 ∨
          ∃ v u, rate_parts s = [v, u] ∧ py_float_parts v = none)) := by
  constructor
  · intro v u pf hparts hpf hlookup
    have hs : ¬ s = "" := by
      intro h
      rw [h] at hparts
      simp [rate_parts, splitOnPred] at hparts
    simp [parse_rate_to_bytes_per_second, parse_rate_scan, hs, hparts, hpf, hlookup]
  · by_cases hs : s = ""
    · subst hs
      simp [parse_rate_to_bytes_per_second, parse_rate_scan]
    · cases hparts : rate_parts s with
      | nil =>
        simp [parse_rate_to_bytes_per_second, parse_rate_scan, hs, hparts]
      | cons v rest =>
        cases rest with
        | nil =>
          simp [parse_rate_to_bytes_per_second, parse_rate_scan, hs, hparts]
        | cons u rest2 =>
          cases rest2 with
          | nil =>
            cases hpf : py_float_parts v with
            | none =>
              simp [parse_rate_to_bytes_per_second, parse_rate_scan, hs, hparts, hpf]
            | some pf =>
              simp [parse_rate_to_bytes_per_second, parse_rate_scan, hs, hparts, hpf]
          | cons w rest3 =>
            simp [parse_rate_to_bytes_per_second, parse_rate_scan, hs, hparts]

/-- C10 witness: "5 XB" has an unrecognised unit and parses to the bare
value 5 (times multiplier 1). -/
theorem C10_unknown_unit_multiplier_one_witness :
    parse_rate_to_bytes_per_second "5 XB" =
      some (ratOfParts (false, 5, 0, 0) * 1) :=
  (C10_unknown_unit_multiplier_one "5 XB").1 ['5'] ['X', 'B'] (false, 5, 0, 0)
    (by decide) (by decide) (by decide)

/-! ## Monitoring states and enum-to-state evaluation -/

/-- Modelled from the spec: the monitoring framework's service states
(`State.OK/WARN/CRIT/UNKNOWN` of `cmk.agent_based.v2`). -/
inductive CkState where
  | ok
  | warn
  | crit
  | unknown
deriving DecidableEq, Repr

/-- Modelled from the spec: severity order used by the framework's
`State.worst` — CRIT is worst, then UNKNOWN, then WARN, then OK. -/
def CkState.rank : CkState → Nat
  | .ok => 0
  | .warn => 1
  | .unknown => 2
  | .crit => 3

/-- Modelled from the spec: `State.worst(a, b)` of the framework. -/
def worst (a b : CkState) : CkState :=
  if b.rank ≤ a.rank then a else b

/-- The `state_map` of `get_malware_state`, which is also the `STATE_MAP`
of the jobs module: configured state strings to framework states. -/
def STATE_MAP : List (String × CkState) :=
  [("ok", .ok), ("warn", .warn), ("crit", .crit)]

/-- The built-in `effective_mapping` defaults of `get_malware_state`
(equivalently `MALWARE_STATUS_DEFAULTS` mapped through `state_map`). -/
def MALWARE_DEFAULTS : List (String × CkState) :=
  [("Clean", .ok), ("Infected", .crit), ("Suspicious", .warn), ("NotScanned", .warn)]

/-- Python dict assignment `m[k] = v` on an association list: replace the
value if the key is present, append otherwise. -/
def assocSet (m : List (String × CkState)) (k : String) (v : CkState) :
    List (String × CkState) :=
  if (m.lookup k).isSome then
    m.map (fun p => if p.1 = k then (k, v) else p)
  else m ++ [(k, v)]

/-- The override-merge loop of `get_malware_state`: for each configured
`(status, state_str)` pair whose state string is valid, assign it into the
effective mapping (Python `effective_mapping[status] = state_map[state_str]`,
iterated in insertion order). -/
def mergeOverrides (ov : List (String × String))
    (base : List (String × CkState)) : List (String × CkState) :=
  ov.foldl
    (fun m p =>
      match STATE_MAP.lookup p.2 with
      | some st => assocSet m p.1 st
      | none => m)
    base

/-- `get_malware_state(malware_status, params)`: defaults overlaid with the
`malware_status_states` overrides (invalid override values are skipped),
unknown statuses map to OK.  `none` models a params dict without the key,
which `params.get(..., {})` turns into the empty override map. -/
def get_malware_state (malware_status : String)
    (malware_status_states : Option (List (String × String))) : CkState :=
  ((mergeOverrides (malware_status_states.getD []) MALWARE_DEFAULTS).lookup
    malware_status).getD .ok

/-- `DEFAULT_RESULT_STATE_MAP` of the jobs module, verbatim. -/
def DEFAULT_RESULT_STATE_MAP : List (String × String) :=
  [("Success", "ok"), ("Warning", "warn"), ("Failed", "crit"), ("None", "ok")]

/-- `DEFAULT_STATUS_STATE_MAP` of the jobs module, verbatim. -/
def DEFAULT_STATUS_STATE_MAP : List (String × String) :=
  [("Running", "ok"), ("Inactive", "ok"), ("Disabled", "warn"), ("Enabled", "ok"),
   ("Stopping", "ok"), ("Stopped", "ok"), ("Starting", "ok")]

/-- `JOB_STATUS_MAP` of the jobs module, verbatim. -/
def JOB_STATUS_MAP : List (String × String) :=
  [("Running", "running"), ("Inactive", "inactive"), ("Disabled", "disabled"),
   ("Enabled", "enabled"), ("Stopping", "stopping"), ("Stopped", "stopped"),
   ("Starting", "starting")]

/-- `_get_result_state(result, params)` of the jobs module: the override map
is consulted first (under `no_result` for the API value `None`), then the
default map, then `ok`; unmapped state strings become OK. -/
def _get_result_state (result : String)
    (result_states : Option (List (String × String))) : CkState :=
  let rs := result_states.getD []
  let param_key := if result = "None" then "no_result" else result
  let state_str := (rs.lookup param_key).getD
    ((DEFAULT_RESULT_STATE_MAP.lookup result).getD "ok")
  (STATE_MAP.lookup state_str).getD .ok

/-- `_get_status_state(status, params)` of the jobs module. -/
def _get_status_state (status : String)
    (status_states : Option (List (String × String))) : CkState :=
  let ss := status_states.getD []
  let state_str := (ss.lookup status).getD
    ((DEFAULT_STATUS_STATE_MAP.lookup status).getD "ok")
  (STATE_MAP.lookup state_str).getD .ok

/-- Lookup of the key just consed on. -/
lemma lookup_cons_self {β : Type} (a : String) (b : β)
    (rest : List (String × β)) :
    List.lookup a ((a, b) :: rest) = some b := by
  have hb : (a == a) = true := beq_iff_eq.mpr rfl
  simp [List.lookup, hb]

/-- Lookup skips a cons whose key differs. -/
lemma lookup_cons_ne {β : Type} (v a : String) (b : β)
    (rest : List (String × β)) (h : v ≠ a) :
    List.lookup v ((a, b) :: rest) = List.lookup v rest := by
  have hb : (v == a) = false := beq_eq_false_iff_ne.mpr h
  simp [List.lookup, hb]

/-- Rewriting one key of an association list leaves lookups of other keys
unchanged. -/
lemma lookup_map_set (m : List (String × CkState)) (k v : String) (st : CkState)
    (h : v ≠ k) :
    (m.map (fun p => if p.1 = k then (k, st) else p)).lookup v = m.lookup v := by
  induction m with
  | nil => rfl
  | cons p rest ih =>
    obtain ⟨a, b⟩ := p
    simp only [List.map_cons]
    by_cases hk : a = k
    · subst hk
      have hhead : (if (a, b).1 = a then (a, st) else (a, b)) = (a, st) := by simp
      rw [hhead, lookup_cons_ne v a st _ h, lookup_cons_ne v a b rest h, ih]
    · have hhead : (if (a, b).1 = k then (k, st) else (a, b)) = (a, b) := by simp [hk]
      rw [hhead]
      by_cases hv : v = a
      · subst hv
        rw [lookup_cons_self, lookup_cons_self]
      · rw [lookup_cons_ne v a b _ hv, lookup_cons_ne v a b rest hv, ih]

/-- Appending a binding for a different key leaves lookups unchanged. -/
lemma lookup_append_single (m : List (String × CkState)) (k v : String)
    (st : CkState) (h : v ≠ k) :
    (m ++ [(k, st)]).lookup v = m.lookup v := by
  induction m with
  | nil =>
    simp only [List.nil_append]
    rw [lookup_cons_ne v k st [] h]
  | cons p rest ih =>
    obtain ⟨a, b⟩ := p
    simp only [List.cons_append]
    by_cases hv : v = a
    · subst hv
      rw [lookup_cons_self, lookup_cons_self]
    · rw [lookup_cons_ne v a b _ hv, lookup_cons_ne v a b rest hv, ih]

/-- Python dict assignment to key `k` does not change lookups of `v ≠ k`. -/
lemma assocSet_lookup_ne (m : List (String × CkState)) (k v : String)
    (st : CkState) (h : v ≠ k) :
    (assocSet m k st).lookup v = m.lookup v := by
  unfold assocSet
  split
  · exact lookup_map_set m k v st h
  · exact lookup_append_single m k v st h

/-- A singleton override for another key leaves a lookup unchanged. -/
lemma mergeOverrides_singleton_ne (base : List (String × CkState))
    (k s v : String) (h : v ≠ k) :
    (mergeOverrides [(k, s)] base).lookup v = base.lookup v := by
  unfold mergeOverrides
  simp only [List.foldl_cons, List.foldl_nil]
  cases hstm : STATE_MAP.lookup (k, s).2 with
  | none => simp only [hstm]
  | some st =>
    simp only [hstm]
    exact assocSet_lookup_ne base k v st h

/-- Merging overrides whose keys all differ from `v` (with `v` absent from
the base map) keeps `v` absent from the effective mapping. -/
lemma mergeOverrides_lookup_none (v : String) (ov : List (String × String)) :
    ∀ base : List (String × CkState), base.lookup v = none →
    ov.lookup v = none → (mergeOverrides ov base).lookup v = none := by
  induction ov with
  | nil =>
    intro base hbase _
    simpa [mergeOverrides] using hbase
  | cons p rest ih =>
    obtain ⟨a, b⟩ := p
    intro base hbase hov
    by_cases hvp : v = a
    · subst hvp
      rw [lookup_cons_self] at hov
      cases hov
    · rw [lookup_cons_ne v a b rest hvp] at hov
      unfold mergeOverrides
      rw [List.foldl_cons]
      have hstep :
          ((fun (m : List (String × CkState)) (p : String × String) =>
            match STATE_MAP.lookup p.2 with
            | some st => assocSet m p.1 st
            | none => m) base (a, b)).lookup v = none := by
        cases hstm : STATE_MAP.lookup b with
        | none => simpa [hstm] using hbase
        | some st =>
          simp only [hstm]
          rw [assocSet_lookup_ne base a v st hvp]
          exact hbase
      exact ih _ hstep hov

/-- C6: enum-to-state evaluation is override-preserving and permissive —
empty overrides equal absent overrides, a singleton override changes no
other key's result, and values absent from both defaults and overrides
evaluate to OK, for both `get_malware_state` and the jobs
`_get_result_state`. -/
theorem C6_enum_override_preserving :
    (∀ v, get_malware_state v (some []) = get_malware_state v none)
    ∧ (∀ r, _get_result_state r (some []) = _get_result_state r none)
    ∧ (∀ v k s, v ≠ k →
        get_malware_state v (some [(k, s)]) = get_malware_state v none)
    ∧ (∀ r k s, (if r = "None" then "no_result" else r) ≠ k →
        _get_result_state r (some [(k, s)]) = _get_result_state r none)
    ∧ (∀ v ov, MALWARE_DEFAULTS.lookup v = none → ov.lookup v = none →
        get_malware_state v (some ov) = CkState.ok)
    ∧ (∀ r ov, DEFAULT_RESULT_STATE_MAP.lookup r = none →
        ov.lookup (if r = "None" then "no_result" else r) = none →
        _get_result_state r (some ov) = CkState.ok) := by
  refine ⟨fun v => rfl, fun r => rfl, ?_, ?_, ?_, ?_⟩
  · intro v k s hvk
    unfold get_malware_state
    rw [Option.getD_some, mergeOverrides_singleton_ne MALWARE_DEFAULTS k s v hvk]
    rfl
  · intro r k s hrk
    unfold _get_result_state
    simp only [Option.getD_some, Option.getD_none]
    rw [lookup_cons_ne _ k s [] hrk]
  · intro v ov hdef hov
    unfold get_malware_state
    rw [Option.getD_some, mergeOverrides_lookup_none v ov MALWARE_DEFAULTS hdef hov]
    rfl
  · intro r ov hdef hov
    unfold _get_result_state
    simp only [Option.getD_some, hdef, hov, Option.getD_none]
    decide

/-- C6 witness: concrete checks of each conjunct — empty vs absent
overrides, a `Clean` override leaving `Infected` untouched, a `Warning`
override leaving `Failed` untouched, and unknown values mapping to OK. -/
theorem C6_enum_override_preserving_witness :
    get_malware_state "Clean" (some []) = get_malware_state "Clean" none
    ∧ _get_result_state "Failed" (some []) = _get_result_state "Failed" none
    ∧ get_malware_state "Infected" (some [("Clean", "warn")]) =
        get_malware_state "Infected" none
    ∧ _get_result_state "Failed" (some [("Warning", "ok")]) =
        _get_result_state "Failed" none
    ∧ get_malware_state "Mystery" (some [("Clean", "warn")]) = CkState.ok
    ∧ _get_result_state "Mystery" (some [("Warning", "ok")]) = CkState.ok := by
  obtain ⟨h1, h2, h3, h4, h5, h6⟩ := C6_enum_override_preserving
  exact ⟨h1 "Clean", h2 "Failed",
    h3 "Infected" "Clean" "warn" (by decide),
    h4 "Failed" "Warning" "ok" (by decide),
    h5 "Mystery" [("Clean", "warn")] (by decide) (by decide),
    h6 "Mystery" [("Warning", "ok")] (by decide) (by decide)⟩

/-! ## Check plugin output model -/

/-- One element of a check function's yielded stream: a `Result` with a
summary, a `Result` carried as a notice (`notice=` keyword), or a `Metric`.
Metric values are rationals (Python ints and floats). -/
inductive CheckItem where
  | result (state : CkState) (summary : String)
  | notice (state : CkState) (text : String)
  | metric (name : String) (value : ℚ)
deriving DecidableEq, Repr

/-- Modelled from the spec: the framework's human-readable renderers
(`render.bytes`, `render.disksize`, `render.timespan`) and the Python
`datetime.fromisoformat(...).strftime(...)` used by `_format_datetime`
(`none` models a raised ValueError/TypeError).  The claims hold for every
behaviour of these externals, so they are parameters rather than fixed
functions. -/
structure Render where
  bytes : ℚ → String
  disksize : ℚ → String
  timespan : ℚ → String
  datetimeFmt : String → Option String

/-- A concrete renderer instantiation used by the witnesses. -/
def trivialRender : Render :=
  { bytes := fun _ => "", disksize := fun _ => "", timespan := fun _ => "",
    datetimeFmt := fun _ => none }

/-- Modelled from the spec: the framework's `render.percent` on the positive
sub-100 values the repository check exercises — one decimal digit (the
framework's extra branches for 0, tiny and ≥ 100 values are not modelled;
no claim depends on them). -/
def render_percent (q : ℚ) : String :=
  toString ((q * 10).floor / 10) ++ "." ++ toString ((q * 10).floor % 10) ++ "%"

/-- Modelled from the spec: the framework's `check_levels` with fixed upper
levels — CRIT when the value reaches the crit bound, WARN at the warn bound
(crit checked first), OK otherwise; the summary is `label: rendered` with a
warn/crit suffix when a level is breached, and the metric follows the
result. -/
def check_levels_upper (value : ℚ) (levels : Option (ℚ × ℚ))
    (metric_name : Option String) (label : String) (rf : ℚ → String) :
    List CheckItem :=
  match levels with
  | none =>
    [CheckItem.result .ok (label ++ ": " ++ rf value)]
      ++ (match metric_name with
          | some n => [CheckItem.metric n value]
          | none => [])
  | some (w, c) =>
    let st : CkState := if c ≤ value then .crit else if w ≤ value then .warn else .ok
    let txt := label ++ ": " ++ rf value
      ++ (if st = CkState.ok then ""
          else " (warn/crit at " ++ rf w ++ "/" ++ rf c ++ ")")
    [CheckItem.result st txt]
      ++ (match metric_name with
          | some n => [CheckItem.metric n value]
          | none => [])

/-- Modelled from the spec: `check_levels` with fixed lower levels — alert
when the value is at or below the bound, crit checked first. -/
def check_levels_lower (value : ℚ) (levels : Option (ℚ × ℚ))
    (metric_name : Option String) (label : String) (rf : ℚ → String) :
    List CheckItem :=
  match levels with
  | none =>
    [CheckItem.result .ok (label ++ ": " ++ rf value)]
      ++ (match metric_name with
          | some n => [CheckItem.metric n value]
          | none => [])
  | some (w, c) =>
    let st : CkState := if value ≤ c then .crit else if value ≤ w then .warn else .ok
    let txt := label ++ ": " ++ rf value
      ++ (if st = CkState.ok then ""
          else " (warn/crit below " ++ rf w ++ "/" ++ rf c ++ ")")
    [CheckItem.result st txt]
      ++ (match metric_name with
          | some n => [CheckItem.metric n value]
          | none => [])

/-! ## Jobs check plugin (`agent_based/veeam_rest_jobs.py`) -/

/-- The `sessionProgress` sub-dictionary of a job record; `none` fields are
absent keys. -/
structure SessionProgress where
  duration : Option String := none
  bottleneck : Option String := none
  processedSize : Option Int := none
  readSize : Option Int := none
  transferredSize : Option Int := none
  processingRate : Option String := none
deriving DecidableEq, Repr

/-- A job record as consumed by `check_veeam_rest_jobs`; `none` fields are
absent keys (the Python `.get` defaults are applied at each use site, as in
the source). -/
structure Job where
  name : Option String := none
  type : Option String := none
  status : Option String := none
  lastResult : Option String := none
  lastRun : Option String := none
  nextRun : Option String := none
  progressPercent : Option Int := none
  objectsCount : Option Int := none
  repositoryName : Option String := none
  lastRunAgeSeconds : Option Int := none
  description : Option String := none
  workload : Option String := none
  highPriority : Option Bool := none
  isStorageSnapshot : Option Bool := none
  backupServer : Option String := none
  nextRunPolicy : Option String := none
  sessionProgress : Option SessionProgress := none
deriving DecidableEq, Repr

/-- The check parameters of the jobs plugin.  `none` override maps model a
params mapping without the key (`params.get(..., {})` then yields `{}`);
`ignore_disabled` and `max_job_age` carry their `.get` defaults. -/
structure JobParams where
  ignore_disabled : Bool := false
  result_states : Option (List (String × String)) := none
  status_states : Option (List (String × String)) := none
  max_job_age : Option Int := none
deriving DecidableEq, Repr

/-- `_format_datetime` of the jobs module: `None`/empty input gives `None`;
otherwise the formatted datetime, or the original string when the external
parse fails. -/
def _format_datetime (R : Render) (iso_string : Option String) : Option String :=
  match iso_string with
  | none => none
  | some s =>
    if s = "" then none
    else
      match R.datetimeFmt s with
      | some t => some t
      | none => some s

/-- Python `x or y` on an optional string (`_format_datetime(..) or last_run`):
falsy (`None` or empty) falls back to `y`. -/
def pyOrStr (x : Option String) (y : String) : String :=
  match x with
  | some t => if t = "" then y else t
  | none => y

/-- The part of `check_veeam_rest_jobs` yielded after the main result:
the max-age warning, the detail notices (lines 257-338 of the source) and
the metrics, in yield order.  Split into its own definition so that theorems
about the main result need not unfold it. -/
def check_jobs_tail (R : Render) (params : JobParams) (job : Job) :
    List CheckItem :=
  let job_type := job.type.getD "Unknown"
  let objects_count := job.objectsCount.getD 0
  let repository := job.repositoryName.getD ""
  let session_progress := job.sessionProgress.getD {}
  let duration := session_progress.duration.getD ""
  let bottleneck := session_progress.bottleneck.getD ""
  let processed_size := session_progress.processedSize.getD 0
  let read_size := session_progress.readSize.getD 0
  let transferred_size := session_progress.transferredSize.getD 0
  let processing_rate := session_progress.processingRate.getD ""
  let description := job.description.getD ""
  let workload := job.workload.getD ""
  let high_priority := job.highPriority.getD false
  let is_storage_snapshot := job.isStorageSnapshot.getD false
  let backup_server := job.backupServer.getD ""
  let next_run_policy := job.nextRunPolicy.getD ""
  (match params.max_job_age, job.lastRunAgeSeconds with
    | some max_age, some age =>
      if max_age * 3600 < age then
        [.result .warn ("Last run " ++ R.timespan (age : ℚ)
          ++ " ago exceeds threshold of " ++ toString max_age ++ "h")]
      else []
    | _, _ => [])
  ++ [.notice .ok ("Type: " ++ job_type),
      .notice .ok ("Objects: " ++ toString objects_count)]
  ++ (if repository ≠ "" then [.notice .ok ("Repository: " ++ repository)]
      else [])
  ++ (if description ≠ "" then [.notice .ok ("Description: " ++ description)]
      else [])
  ++ (if workload ≠ "" then [.notice .ok ("Workload: " ++ workload)] else [])
  ++ (if backup_server ≠ "" then
        [.notice .ok ("Backup Server: " ++ backup_server)]
      else [])
  ++ (match job.lastRun with
      | some lr =>
        if lr ≠ "" then
          [.notice .ok ("Last Run: " ++ pyOrStr (_format_datetime R (some lr)) lr)]
        else []
      | none => [])
  ++ (match job.nextRun with
      | some nr =>
        if nr ≠ "" then
          [.notice .ok ("Next Run: " ++ pyOrStr (_format_datetime R (some nr)) nr)]
        else []
      | none => [])
  ++ (if next_run_policy ≠ "" ∧ next_run_policy ≠ "<Not scheduled>" then
        [.notice .ok ("Schedule Policy: " ++ next_run_policy)]
      else [])
  ++ (if duration ≠ "" then [.notice .ok ("Last Duration: " ++ duration)]
      else [])
  ++ (if 0 < processed_size then
        [.notice .ok ("Processed: " ++ R.disksize (processed_size : ℚ))]
      else [])
  ++ (if 0 < read_size then
        [.notice .ok ("Read: " ++ R.disksize (read_size : ℚ))]
      else [])
  ++ (if 0 < transferred_size then
        [.notice .ok ("Transferred: " ++ R.disksize (transferred_size : ℚ))]
      else [])
  ++ (if processing_rate ≠ "" then
        [.notice .ok ("Speed: " ++ processing_rate)]
      else [])
  ++ (if bottleneck ≠ "" ∧ bottleneck ≠ "NotDefined" ∧ bottleneck ≠ "Unknown"
      then [.notice .ok ("Bottleneck: " ++ bottleneck)]
      else [])
  ++ (let flags :=
        (if high_priority then ["High Priority"] else [])
        ++ (if is_storage_snapshot then ["Storage Snapshot"] else [])
      if flags ≠ [] then
        [.notice .ok ("Flags: " ++ String.intercalate ", " flags)]
      else [])
  ++ (match parse_duration_to_seconds duration with
      | some d => [.metric "veeam_rest_job_duration" (d : ℚ)]
      | none => [])
  ++ (if 0 < processed_size then
        [.metric "veeam_rest_job_size_processed" (processed_size : ℚ)]
      else [])
  ++ (if 0 < read_size then
        [.metric "veeam_rest_job_size_read" (read_size : ℚ)]
      else [])
  ++ (if 0 < transferred_size then
        [.metric "veeam_rest_job_size_transferred" (transferred_size : ℚ)]
      else [])
  ++ (match parse_rate_to_bytes_per_second processing_rate with
      | some sp => [.metric "veeam_rest_job_speed" sp]
      | none => [])

/-- `check_veeam_rest_jobs(item, params, section)`: the full yielded stream,
in order — guards, optional disabled-short-circuit, main result, then the
tail (max-age warning, detail notices, metrics). -/
def check_veeam_rest_jobs (R : Render) (item : String) (params : JobParams)
    (sec : List (String × Job)) : List CheckItem :=
  if sec = [] then [.result .unknown "No data received from agent"]
  else
    match sec.lookup item with
    | none => [.result .unknown "Job not found"]
    | some job =>
      let status := job.status.getD "Unknown"
      let last_result := job.lastResult.getD "None"
      let progress := job.progressPercent.getD 0
      let result_state := _get_result_state last_result params.result_states
      let status_state := _get_status_state status params.status_states
      let state := worst result_state status_state
      if status = "Disabled" ∧ params.ignore_disabled then
        [.result .ok "Job is disabled (ignored)"]
      else
        let status_text := (JOB_STATUS_MAP.lookup status).getD status
        let session_progress := job.sessionProgress.getD {}
        let duration := session_progress.duration.getD ""
        let processed_size := session_progress.processedSize.getD 0
        let summary_parts :=
          ["Status: " ++ status_text, "Last result: " ++ last_result]
          ++ (if status = "Running" then
                ["Progress: " ++ toString progress ++ "%"]
              else
                (if duration ≠ "" then ["Last Duration: " ++ duration] else [])
                ++ (if 0 < processed_size then
                      ["Processed: " ++ R.bytes (processed_size : ℚ)]
                    else []))
        CheckItem.result state (String.intercalate ", " summary_parts)
          :: check_jobs_tail R params job

/-- `worst` with CRIT on the left is CRIT, whatever the other state. -/
lemma worst_crit_left (x : CkState) : worst CkState.crit x = CkState.crit := by
  cases x <;> rfl

/-- C4: a job whose `lastResult` is `"Failed"`, checked under the default
enum maps (empty `result_states`/`status_states` overrides), gets a CRIT
main result whatever its `status` — except that with `ignore_disabled` set
and `status == "Disabled"` the check yields exactly one OK result
`"Job is disabled (ignored)"` and nothing else. -/
theorem C4_failed_job_crit (R : Render) (item : String) (params : JobParams)
    (sec : List (String × Job)) (job : Job)
    (hlookup : sec.lookup item = some job)
    (hlr : job.lastResult.getD "None" = "Failed")
    (hrs : params.result_states = some [])
    (_hss : params.status_states = some []) :
    (job.status.getD "Unknown" = "Disabled" → params.ignore_disabled = true →
      check_veeam_rest_jobs R item params sec =
        [CheckItem.result .ok "Job is disabled (ignored)"])
    ∧ (¬ (job.status.getD "Unknown" = "Disabled" ∧ params.ignore_disabled = true) →
      ∃ s rest, check_veeam_rest_jobs R item params sec =
        CheckItem.result .crit s :: rest) := by
  have hsec : ¬ sec = [] := by
    intro h
    rw [h] at hlookup
    simp [List.lookup] at hlookup
  have hcrit : _get_result_state "Failed" (some []) = CkState.crit := by decide
  constructor
  · intro hdis hign
    simp [check_veeam_rest_jobs, hsec, hlookup, hdis, hign]
  · intro hnot
    simp only [check_veeam_rest_jobs, hlookup]
    rw [if_neg hsec, if_neg hnot, hlr, hrs, hcrit, worst_crit_left]
    exact ⟨_, _, rfl⟩

/-- A concrete disabled failed job for the C4 witness. -/
def jobDisabledFailed : Job :=
  { status := some "Disabled", lastResult := some "Failed" }

/-- A concrete stopped failed job for the C4 witness. -/
def jobStoppedFailed : Job :=
  { status := some "Stopped", lastResult := some "Failed" }

/-- Default job parameters with empty override maps. -/
def jobParamsDefault (ign : Bool) : JobParams :=
  { ignore_disabled := ign, result_states := some [], status_states := some [] }

/-- C4 witness: the disabled job with `ignore_disabled` yields exactly the
single OK result; the stopped failed job yields a CRIT main result. -/
theorem C4_failed_job_crit_witness :
    check_veeam_rest_jobs trivialRender "j" (jobParamsDefault true)
        [("j", jobDisabledFailed)] =
      [CheckItem.result .ok "Job is disabled (ignored)"]
    ∧ ∃ s rest, check_veeam_rest_jobs trivialRender "j" (jobParamsDefault false)
        [("j", jobStoppedFailed)] = CheckItem.result .crit s :: rest := by
  constructor
  · exact (C4_failed_job_crit trivialRender "j" (jobParamsDefault true)
      [("j", jobDisabledFailed)] jobDisabledFailed
      (by decide) (by decide) rfl rfl).1 (by decide) rfl
  · exact (C4_failed_job_crit trivialRender "j" (jobParamsDefault false)
      [("j", jobStoppedFailed)] jobStoppedFailed
      (by decide) (by decide) rfl rfl).2 (by decide)

/-! ## Repositories check plugin (`agent_based/veeam_rest_repositories.py`) -/

/-- The `scaleOutRepositoryDetails` sub-dictionary of a repository record. -/
structure ScaleOutDetails where
  extentType : Option String := none
  membership : Option String := none
deriving DecidableEq, Repr

/-- A repository record as consumed by `check_veeam_rest_repositories`;
`none` fields are absent keys.  `usedSpaceGB` is reported by the API but
never read by the check (the source recomputes used space from capacity and
free, see the comment at its line 158). -/
structure Repo where
  name : Option String := none
  type : Option String := none
  capacityGB : Option ℚ := none
  freeGB : Option ℚ := none
  usedSpaceGB : Option ℚ := none
  isOnline : Option Bool := none
  isOutOfDate : Option Bool := none
  hostName : Option String := none
  path : Option String := none
  description : Option String := none
  id : Option String := none
  scaleOutRepositoryDetails : Option ScaleOutDetails := none
deriving DecidableEq, Repr

/-- The two tuple shapes the check accepts for a levels parameter: the
ruleset's `("fixed", (warn, crit))`, the legacy bare `(warn, crit)`, and a
pass-through `("no_levels", None)`. -/
inductive LevelsSpec where
  | fixedLv (warn crit : ℚ)
  | bareLv (warn crit : ℚ)
  | noLevels
deriving DecidableEq, Repr

/-- The `usage_levels` normalisation (lines 189-198): a bare pair is wrapped
into fixed levels, `no_levels` passes through as no alert levels. -/
def normalizeLevels : LevelsSpec → Option (ℚ × ℚ)
  | .fixedLv w c => some (w, c)
  | .bareLv w c => some (w, c)
  | .noLevels => none

/-- The `free_space_levels` normalisation (lines 217-228): a legacy bare
pair is in GB and is converted to bytes. -/
def normalizeFreeLevels : LevelsSpec → Option (ℚ × ℚ)
  | .fixedLv w c => some (w, c)
  | .bareLv w c =>
    some (w * 1024 * 1024 * 1024, c * 1024 * 1024 * 1024)
  | .noLevels => none

/-- The check parameters of the repositories plugin (`none` = key absent;
the plugin defaults set `usage_levels` to fixed `(80, 90)`). -/
structure RepoParams where
  usage_levels : Option LevelsSpec := none
  free_space_levels : Option LevelsSpec := none
deriving DecidableEq, Repr

/-- `check_veeam_rest_repositories(item, params, section)`: the full yielded
stream, in order — guards, offline short-circuit, outdated warning, usage
levels, free-space levels, capacity summary, metrics and detail notices. -/
def check_veeam_rest_repositories (R : Render) (item : String)
    (params : RepoParams) (sec : List (String × Repo)) : List CheckItem :=
  if sec = [] then [.result .unknown "No data received from agent"]
  else
    match sec.lookup item with
    | none => [.result .unknown "Repository not found"]
    | some repo =>
      let repo_type := repo.type.getD "Unknown"
      let capacity_gb := repo.capacityGB.getD 0
      let free_gb := repo.freeGB.getD 0
      let used_gb := if 0 < capacity_gb then capacity_gb - free_gb else 0
      let is_online := repo.isOnline.getD true
      let is_outdated := repo.isOutOfDate.getD false
      let host_name := repo.hostName.getD ""
      let path := repo.path.getD ""
      let capacity_bytes := capacity_gb * 1024 * 1024 * 1024
      let free_bytes := free_gb * 1024 * 1024 * 1024
      let used_bytes := used_gb * 1024 * 1024 * 1024
      let used_percent := if 0 < capacity_gb then used_gb / capacity_gb * 100 else 0
      if is_online = false then [.result .crit "Repository is OFFLINE"]
      else
        (if is_outdated then
          [.result .warn "Repository has outdated components"]
        else [])
        ++ (match params.usage_levels with
            | some lv =>
              check_levels_upper used_percent (normalizeLevels lv)
                (some "repository_used_percent") "Used" render_percent
            | none =>
              [.result .ok ("Used: " ++ render_percent used_percent),
               .metric "veeam_rest_repository_used_percent" used_percent])
        ++ (match params.free_space_levels with
            | some lv =>
              check_levels_lower free_bytes (normalizeFreeLevels lv)
                (some "veeam_rest_repository_free") "Free" R.disksize
            | none => [])
        ++ [.result .ok ("Capacity: " ++ R.disksize capacity_bytes
              ++ ", Free: " ++ R.disksize free_bytes)]
        ++ [.metric "veeam_rest_repository_capacity" capacity_bytes]
        ++ (if params.free_space_levels = none then
              [.metric "veeam_rest_repository_free" free_bytes]
            else [])
        ++ [.metric "veeam_rest_repository_used" used_bytes]
        ++ [.notice .ok ("Type: " ++ repo_type)]
        ++ (if host_name ≠ "" then [.notice .ok ("Host: " ++ host_name)] else [])
        ++ (if path ≠ "" then [.notice .ok ("Path: " ++ path)] else [])
        ++ (let description := repo.description.getD ""
            if description ≠ "" then
              [.notice .ok ("Description: " ++ description)]
            else [])
        ++ (match repo.scaleOutRepositoryDetails with
            | some so =>
              (if so.extentType.getD "" ≠ "" then
                [.notice .ok ("Extent Type: " ++ so.extentType.getD "")]
              else [])
              ++ (if so.membership.getD "" ≠ "" then
                    [.notice .ok ("Member of: " ++ so.membership.getD "")]
                  else [])
            | none => [])
        ++ (let repo_id := repo.id.getD ""
            if repo_id ≠ "" then [.notice .ok ("ID: " ++ repo_id)] else [])

/-- A substring fact expressed by explicit decomposition. -/
def containsSub (s pat : String) : Prop :=
  ∃ pre post, s = pre ++ pat ++ post

/-- The C5 repository record: 1000 GB capacity, 100 GB free, and an
arbitrary reported used-space value which the check must ignore. -/
def repoC5 (u : Option ℚ) : Repo :=
  { name := some "repo1", capacityGB := some 1000, freeGB := some 100,
    usedSpaceGB := u }

/-- The repositories plugin's `check_default_parameters`:
usage levels fixed at (80, 90). -/
def repoParamsDefault : RepoParams :=
  { usage_levels := some (.fixedLv 80 90) }

/-- C5: with capacity 1000 GB and free 100 GB the check derives
`used = capacity - free` (900 GB, 90 %) — whatever used-space value the API
reports — and under the default levels (warn 80, crit 90) the usage result
is CRIT with a summary containing "90.0%". -/
theorem C5_repository_usage_crit (R : Render) (u : Option ℚ) :
    check_veeam_rest_repositories R "x" repoParamsDefault [("x", repoC5 u)] =
      [CheckItem.result .crit "Used: 90.0% (warn/crit at 80.0%/90.0%)",
       CheckItem.metric "repository_used_percent" 90,
       CheckItem.result .ok ("Capacity: " ++ R.disksize (1000 * 1024 * 1024 * 1024)
         ++ ", Free: " ++ R.disksize (100 * 1024 * 1024 * 1024)),
       CheckItem.metric "veeam_rest_repository_capacity" (1000 * 1024 * 1024 * 1024),
       CheckItem.metric "veeam_rest_repository_free" (100 * 1024 * 1024 * 1024),
       CheckItem.metric "veeam_rest_repository_used" (900 * 1024 * 1024 * 1024),
       CheckItem.notice .ok "Type: Unknown"]
    ∧ containsSub "Used: 90.0% (warn/crit at 80.0%/90.0%)" "90.0%" := by
  have h90 : render_percent 90 = "90.0%" := by
    unfold render_percent
    have hm : ((90 : ℚ) * 10) = 900 := by norm_num
    rw [hm, show Rat.floor 900 = 900 from by decide]
    decide
  have h80 : render_percent 80 = "80.0%" := by
    unfold render_percent
    have hm : ((80 : ℚ) * 10) = 800 := by norm_num
    rw [hm, show Rat.floor 800 = 800 from by decide]
    decide
  constructor
  · simp only [check_veeam_rest_repositories, repoC5, repoParamsDefault,
      check_levels_upper, normalizeLevels]
    norm_num [h90, h80]
    exact ⟨by decide, by decide⟩
  · exact ⟨"Used: ", " (warn/crit at 80.0%/90.0%)", by decide⟩

/-! ## Section parsing (`lib.py`, `parse_json_section`) -/

/-- JSON values, as far as the section parser's result shape matters. -/
inductive Json where
  | null
  | bool (b : Bool)
  | num (q : ℚ)
  | str (s : String)
  | arr (items : List Json)
  | obj (fields : List (String × Json))

/-- `parse_json_section(string_table)`: joins the first cell of every row
and parses the result; `loads` is the external `json.loads`, with `none`
modelling a raised `JSONDecodeError`.  An empty table gives `None`
directly; a row without cells raises `IndexError` at `line[0]`, which the
`except` clause also turns into `None`. -/
def parse_json_section (loads : String → Option Json)
    (string_table : List (List String)) : Option Json :=
  if string_table = [] then none
  else if string_table.any (fun row => row = []) then none
  else loads (String.join (string_table.map (fun row => row.headD "")))

/-- C9: missing or unparseable data never crashes and never silently drops a
service — `parse_json_section` returns `None` (instead of raising) for an
empty table and whenever `json.loads` fails, and the jobs check yields
exactly one UNKNOWN result with an explanatory summary for an empty section
or an item that is not in the section. -/
theorem C9_no_data_is_unknown :
    (∀ loads, parse_json_section loads [] = none)
    ∧ (∀ loads st,
        loads (String.join (st.map (fun row => row.headD ""))) = none →
        parse_json_section loads st = none)
    ∧ (∀ R item params,
        check_veeam_rest_jobs R item params [] =
          [CheckItem.result .unknown "No data received from agent"])
    ∧ (∀ R item params sec, sec ≠ [] → sec.lookup item = none →
        check_veeam_rest_jobs R item params sec =
          [CheckItem.result .unknown "Job not found"]) := by
  refine ⟨fun loads => rfl, ?_, fun R item params => rfl, ?_⟩
  · intro loads st hloads
    unfold parse_json_section
    by_cases hempty : st = []
    · simp [hempty]
    · by_cases hrow : st.any (fun row => row = [])
      · simp [hempty, hrow]
      · have hloads2 :
            loads (String.join (st.map (fun row => row.head?.getD ""))) = none := by
          simpa using hloads
        simp [hempty, hrow, hloads2]
  · intro R item params sec hsec hlookup
    unfold check_veeam_rest_jobs
    rw [if_neg hsec, hlookup]

/-- C9 witness: a failing `loads` on a one-row table gives `None`, and a
section without the requested job yields the single UNKNOWN result. -/
theorem C9_no_data_is_unknown_witness :
    parse_json_section (fun _ => none) [["not json"]] = none
    ∧ check_veeam_rest_jobs trivialRender "missing" {} [("other", {})] =
        [CheckItem.result .unknown "Job not found"] := by
  obtain ⟨_, h2, _, h4⟩ := C9_no_data_is_unknown
  exact ⟨h2 (fun _ => none) [["not json"]] rfl,
    h4 trivialRender "missing" {} [("other", {})] (by decide) (by decide)⟩

end VeeamRest
